import Mathlib

/-!
Verification of the `ddb_local` package (a lifecycle manager for a locally
run DynamoDB emulator process) against its specification.

The embedding models the POSIX path functions used by the installer
(`os.path.join`, `os.path.normpath`, `os.path.abspath`,
`os.path.commonprefix`) at the character level, since the installer's
path-traversal check operates on raw strings.  Paths are `List Char`;
string-valued configuration stays `String`.

Filesystem and network side effects are modelled as an explicit effect
trace (`Eff`), and fallible steps return `Except Err`.
-/

/-- Splitting a character list on the separator char, mirroring Python's
`str.split(sep)`: the empty string splits to `[""]`, and adjacent
separators produce empty components. -/
def splitOnChar (sep : Char) : List Char → List (List Char)
  | [] => [[]]
  | c :: rest =>
    let r := splitOnChar sep rest
    if c = sep then [] :: r
    else
      match r with
      | [] => [[c]]
      | h :: t => (c :: h) :: t

/-- One step of `posixpath.normpath`'s component loop: skip empty and `.`
components; `..` pops the previous component unless the path is relative
and empty so far, or the previous component is itself `..`; a leading `..`
on an absolute path is dropped.  The accumulator is kept reversed (head =
most recent component). -/
def normStep (initialSlash : Bool) (acc : List (List Char)) (comp : List Char) :
    List (List Char) :=
  if comp = [] ∨ comp = ['.'] then acc
  else if comp ≠ ['.', '.'] ∨ (initialSlash = false ∧ acc = []) ∨
      acc.head? = some ['.', '.'] then
    comp :: acc
  else
    match acc with
    | [] => acc
    | _ :: t => t

/-- Joining path components with `/`, mirroring `"/".join(comps)`. -/
def joinComps : List (List Char) → List Char
  | [] => []
  | [c] => c
  | c :: rest => c ++ '/' :: joinComps rest

/-- `posixpath.normpath` for paths with at most one leading slash:
collapse empty and `.` components, resolve `..`, return `.` for an empty
result.  (The POSIX double-leading-slash special case is not modelled;
no path in this development has one.) -/
def normpath (p : List Char) : List Char :=
  let initialSlash := p.head? = some '/'
  let comps := splitOnChar '/' p
  let newComps := (comps.foldl (normStep initialSlash) []).reverse
  let joined := joinComps newComps
  let result := if initialSlash then '/' :: joined else joined
  if result = [] then ['.'] else result

/-- Two-argument `posixpath.join`: an absolute second argument replaces
the first; otherwise the two are glued with a `/` unless the first is
empty or already ends in `/`. -/
def joinPath (a b : List Char) : List Char :=
  if b.head? = some '/' then b
  else if a = [] ∨ a.getLast? = some '/' then a ++ b
  else a ++ '/' :: b

/-- `posixpath.abspath` with the process working directory passed
explicitly: make the path absolute against `cwd`, then normalize. -/
def abspath (cwd p : List Char) : List Char :=
  if p.head? = some '/' then normpath p else normpath (joinPath cwd p)

/-- `os.path.commonprefix` on a two-element list: the longest common
character-level prefix of the two strings (not component-aware). -/
def commonPrefix2 : List Char → List Char → List Char
  | a :: as, b :: bs => if a = b then a :: commonPrefix2 as bs else []
  | _, _ => []

/-- Embeds `is_within_directory` (src/ddb_local/__init__.py, lines 23-29):
take `abspath` of both arguments and test whether their character-level
common prefix equals the directory.  The process working directory that
`os.path.abspath` consults implicitly is an explicit argument here. -/
def is_within_directory (cwd directory target : List Char) : Bool :=
  let abs_directory := abspath cwd directory
  let abs_target := abspath cwd target
  decide (commonPrefix2 abs_directory abs_target = abs_directory)

/-- Modelled from the spec's safety invariant, for comparison with
`is_within_directory`: the resolved absolute extraction path "must remain
within the target directory", i.e. it equals the resolved directory or
lives strictly below it (directory plus a `/` separator is a prefix,
component-wise containment). -/
def resolvedWithinDir (cwd directory target : List Char) : Bool :=
  let absDir := abspath cwd directory
  let absTarget := abspath cwd target
  decide (absTarget = absDir) || (absDir ++ ['/']).isPrefixOf absTarget

/-- Error values: one constructor per distinguishable failure condition
raised by the source (each `raise Exception(...)` site). -/
inductive Err where
  | notADirectory
  | downloadFailed
  | tarFailed
  | traversal (p : List Char)
  | bothInMemoryAndDisk
  | portNotFree
  | noJava
  | failedToStart (rc : Int)
  | neverReachable
  | bodyFailed
  deriving DecidableEq, Repr

/-- Observable side effects of the lifecycle manager, in program order:
directory creation, the HTTP GET of the archive, extraction of one tar
member to a resolved path, recursive deletion, process spawn, graceful
termination, forced kill, and the readiness poll. -/
inductive Eff where
  | makedirs (d : List Char)
  | download (url : String)
  | extractEntry (p : List Char)
  | rmtree (d : List Char)
  | spawn (args : List String) (workDir : String)
  | terminate (pid : Nat)
  | kill (pid : Nat)
  | reachWait
  deriving DecidableEq, Repr

/-- A child-process handle (`subprocess.Popen`): its pid and the exit
code observable right after spawn (`returncode`, set only once the child
has exited). -/
structure Proc where
  pid : Nat
  returncode : Option Int
  deriving DecidableEq, Repr

/-- The `LocalDynamoDB` object's fields after `__init__`
(src/ddb_local/__init__.py, lines 66-78). -/
structure LocalDynamoDB where
  source_url : String
  unpack_dir : String
  debug : Bool
  port : Nat
  in_memory : Bool
  extra_args : List String
  java_bin : Option String
  ddb_process : Option Proc
  endpoint : String
  shared_db : Bool
  db_path : Option String
  deriving DecidableEq, Repr

/-- The module-level default archive URL (src/ddb_local/__init__.py,
lines 14-16). -/
def DEFAULT_DOWNLOAD_URL : String :=
  "https://s3.us-west-2.amazonaws.com/dynamodb-local/dynamodb_local_latest.tar.gz"

/-- Embeds `LocalDynamoDB.__init__` (src/ddb_local/__init__.py, lines
41-81).  Field assignments mirror the source: `source_url` is set to the
module default `DEFAULT_DOWNLOAD_URL` (the line reads
`self.source_url = DEFAULT_DOWNLOAD_URL`, not the parameter).  A truthy
`db_path` (non-empty string) is stored as its `abspath` and the directory
is created with `os.makedirs` before the in-memory/on-disk conflict check;
the conflict check itself tests the original argument against `None`.
Returns the effect trace and either the constructed object or the raised
error. -/
def initLocalDynamoDB (cwd : List Char) (source_url : String) (unpack_dir : String)
    (debug : Bool) (port : Nat) (in_memory : Bool) (db_path : Option String)
    (shared_db : Bool) (extra_args : List String) :
    List Eff × Except Err LocalDynamoDB :=
  let stored : Option String :=
    match db_path with
    | some p => if p.data = [] then none else some (String.mk (abspath cwd p.data))
    | none => none
  let effs : List Eff :=
    match stored with
    | some ap => [.makedirs ap.data]
    | none => []
  let self : LocalDynamoDB :=
    { source_url := DEFAULT_DOWNLOAD_URL
      unpack_dir := unpack_dir
      debug := debug
      port := port
      in_memory := in_memory
      extra_args := extra_args
      java_bin := none
      ddb_process := none
      endpoint := "http://localhost:" ++ toString port
      shared_db := shared_db
      db_path := stored }
  if in_memory ∧ db_path.isSome then (effs, .error .bothInMemoryAndDisk)
  else (effs, .ok self)

/-- Environment facts `_ensure_installed` depends on: the process working
directory, whether the target path exists and is a directory, whether the
HTTP GET succeeds (connection and status), whether the tar stream is
readable, and the ordered member names of the archive. -/
structure InstallEnv where
  cwd : List Char
  dirExists : Bool
  dirIsDir : Bool
  downloadOk : Bool
  tarOk : Bool
  members : List (List Char)
  deriving DecidableEq, Repr

/-- The member loop of `_ensure_installed` (src/ddb_local/__init__.py,
lines 100-112): for each member in order, compute
`os.path.join(unpack_dir, member.name)`; if `is_within_directory` rejects
it, raise the path-traversal error without extracting it (nor any later
member); otherwise extract it (to that path, since the working directory
was changed to `unpack_dir`) and continue. -/
def extractLoop (cwd unpackDir : List Char) :
    List (List Char) → List Eff × Except Err Unit
  | [] => ([], .ok ())
  | name :: rest =>
    let memberPath := joinPath unpackDir name
    if is_within_directory cwd unpackDir memberPath = false then
      ([], .error (.traversal memberPath))
    else
      let r := extractLoop cwd unpackDir rest
      (.extractEntry memberPath :: r.1, r.2)

/-- Embeds `_ensure_installed` (src/ddb_local/__init__.py, lines 83-118).
If the target exists: error when it is not a directory, otherwise return
with no effects.  If absent: `os.makedirs`, then the GET (an error from
the request or `raise_for_status` propagates with no cleanup — the
`try/finally` holding the `rmtree` only wraps the extraction), then the
extraction loop; any exception inside the `try` (unreadable tar stream or
a traversal rejection) triggers `shutil.rmtree` of the target before the
error propagates. -/
def ensureInstalled (env : InstallEnv) (unpackDir : List Char) (sourceUrl : String) :
    List Eff × Except Err Unit :=
  if env.dirExists then
    if env.dirIsDir = false then ([], .error .notADirectory)
    else ([], .ok ())
  else
    let pre : List Eff := [.makedirs unpackDir, .download sourceUrl]
    if env.downloadOk = false then (pre, .error .downloadFailed)
    else if env.tarOk = false then (pre ++ [.rmtree unpackDir], .error .tarFailed)
    else
      let r := extractLoop env.cwd unpackDir env.members
      match r.2 with
      | Except.ok () => (pre ++ r.1, .ok ())
      | Except.error e => (pre ++ r.1 ++ [.rmtree unpackDir], .error e)

/-- Effect of one `Eff` on whether directory `d` exists. -/
def applyEff (d : List Char) (b : Bool) : Eff → Bool
  | .makedirs e => if e = d then true else b
  | .rmtree e => if e = d then false else b
  | _ => b

/-- Whether directory `d` exists after running an effect trace, starting
from existence state `b`. -/
def dirPresentAfter (d : List Char) (b : Bool) (effs : List Eff) : Bool :=
  effs.foldl (applyEff d) b

/-- The argument-vector construction of `_start_ddb_local`
(src/ddb_local/__init__.py, lines 167-183): the runtime path, the fixed
library-path flag, the jar flag and entry, the port pair, then the
conditional appends in source order, then the pass-through arguments.
`javaBin` is the value `_ensure_java_exists` stored in `self.java_bin`. -/
def ddbArgs (javaBin : String) (self : LocalDynamoDB) : List String :=
  let args := [javaBin, "-Djava.library.path=DynamoDBLocal_lib", "-jar",
    "DynamoDBLocal.jar", "-port", toString self.port]
  let args := if self.in_memory then args ++ ["-inMemory"] else args
  let args :=
    match self.db_path with
    | some p => args ++ ["-dbPath", p]
    | none => args
  let args := if self.shared_db then args ++ ["-sharedDb"] else args
  args ++ self.extra_args

/-- Environment facts the start sequence depends on: whether the port
bind probe succeeds, the runtime discovery outcome (`none` when neither
`JAVA_HOME` nor `java` works), the installer environment, the pid the OS
assigns to the spawned child, the child's `returncode` as observed right
after spawn, and whether the readiness poll gets a response within its
timeout. -/
structure StartEnv where
  portFree : Bool
  javaBin : Option String
  install : InstallEnv
  spawnPid : Nat
  spawnReturncode : Option Int
  reachable : Bool
  deriving DecidableEq, Repr

/-- Embeds `LocalDynamoDB.start` (src/ddb_local/__init__.py, lines
206-211): `_ensure_port_free`, `_ensure_java_exists` (storing the found
runtime in `java_bin`), `_ensure_installed`, `_start_ddb_local` (spawn
with working directory `unpack_dir`, store the handle in `ddb_process`,
then raise synchronously if the child's `returncode` is already set),
then `_ensure_reachable`.  There is no exception handler: a step's error
propagates, and every mutation made before it persists.  Returns the
mutated object, the effect trace, and the outcome. -/
def startSeq (env : StartEnv) (self : LocalDynamoDB) :
    LocalDynamoDB × List Eff × Except Err Unit :=
  if env.portFree = false then (self, [], .error .portNotFree)
  else
    match env.javaBin with
    | none => (self, [], .error .noJava)
    | some jb =>
      let self1 := { self with java_bin := some jb }
      let inst := ensureInstalled env.install self1.unpack_dir.data self1.source_url
      match inst.2 with
      | .error e => (self1, inst.1, .error e)
      | .ok () =>
        let args := ddbArgs jb self1
        let child : Proc := { pid := env.spawnPid, returncode := env.spawnReturncode }
        let self2 := { self1 with ddb_process := some child }
        let effs := inst.1 ++ [.spawn args self2.unpack_dir]
        match env.spawnReturncode with
        | some rc => (self2, effs, .error (.failedToStart rc))
        | none =>
          if env.reachable then (self2, effs ++ [.reachWait], .ok ())
          else (self2, effs ++ [.reachWait], .error .neverReachable)

/-- Embeds `LocalDynamoDB.stop` / `_shutdown_ddb_local`
(src/ddb_local/__init__.py, lines 192-204, 213-214).  No handle: nothing
happens.  With a handle: `terminate`, then `wait` with a timeout;
`gracefulWithinTimeout` says whether the child exited within it, and on
timeout the child is killed.  Both branches clear `ddb_process`, and no
branch raises. -/
def stopSeq (gracefulWithinTimeout : Bool) (self : LocalDynamoDB) :
    LocalDynamoDB × List Eff :=
  match self.ddb_process with
  | none => (self, [])
  | some p =>
    if gracefulWithinTimeout then
      ({ self with ddb_process := none }, [.terminate p.pid])
    else
      ({ self with ddb_process := none }, [.terminate p.pid, .kill p.pid])

/-- Embeds `with LocalDynamoDB(...)` under Python's context-manager
protocol: `__enter__` runs `start`; if it raises, the exception
propagates and `__exit__` is never invoked.  Only when `__enter__`
returns does the body run, after which `__exit__` runs `stop` — also
when the body itself raised (`bodyOk = false`). -/
def withLifecycle (env : StartEnv) (gracefulWithinTimeout bodyOk : Bool)
    (self : LocalDynamoDB) : LocalDynamoDB × List Eff × Except Err Unit :=
  match startSeq env self with
  | (self1, effs, Except.error e) => (self1, effs, .error e)
  | (self1, effs, Except.ok ()) =>
    let stopped := stopSeq gracefulWithinTimeout self1
    (stopped.1, effs ++ stopped.2, if bodyOk then .ok () else .error .bodyFailed)

/-- The extraction loop emits only `extractEntry` effects; in particular
no readiness poll happens during extraction. -/
lemma extractLoop_reach_free (cwd d : List Char) (ms : List (List Char)) :
    Eff.reachWait ∉ (extractLoop cwd d ms).1 := by
  induction ms with
  | nil => simp [extractLoop]
  | cons n rest ih =>
    by_cases h : is_within_directory cwd d (joinPath d n) = false
    · simp [extractLoop, h]
    · simp [extractLoop, h, ih]

/-- The installer's effect trace never contains the readiness poll. -/
lemma ensureInstalled_reach_free (env : InstallEnv) (d : List Char) (u : String) :
    Eff.reachWait ∉ (ensureInstalled env d u).1 := by
  have hx := extractLoop_reach_free env.cwd d env.members
  unfold ensureInstalled
  cases he : env.dirExists
  · cases hdl : env.downloadOk
    · simp
    · cases ht : env.tarOk
      · simp
      · cases hr : (extractLoop env.cwd d env.members).2 with
        | ok v => cases v; simp [hr, hx]
        | error e => simp [hr, hx]
  · cases hd : env.dirIsDir <;> simp

/-- A trace ending in `rmtree d` leaves directory `d` absent. -/
lemma dirPresentAfter_rmtree (d : List Char) (b : Bool) (l : List Eff) :
    dirPresentAfter d b (l ++ [Eff.rmtree d]) = false := by
  simp [dirPresentAfter, List.foldl_append, applyEff]

/-- C6: constructing with the in-memory flag set and any explicit db_path
(even the empty string, which skips directory creation but still trips
the `is not None` test) raises the mutual-exclusion error, whatever the
other constructor arguments are. -/
theorem construct_inmemory_with_db_path_always_fails
    (cwd : List Char) (su ud : String) (dbg : Bool) (port : Nat) (p : String)
    (sdb : Bool) (xa : List String) :
    (initLocalDynamoDB cwd su ud dbg port true (some p) sdb xa).2 =
      Except.error Err.bothInMemoryAndDisk := by
  simp [initLocalDynamoDB]

/-- C8: the child-process argument vector is exactly the fixed head
(runtime path, library-path flag, jar flag and entry, port pair) followed
by `-inMemory` iff the in-memory flag is set, then `-dbPath <path>` iff an
on-disk path is stored, then `-sharedDb` iff the shared flag is set, with
the pass-through arguments last. -/
theorem ddbArgs_deterministic_order (jb : String) (self : LocalDynamoDB) :
    ddbArgs jb self =
      [jb, "-Djava.library.path=DynamoDBLocal_lib", "-jar", "DynamoDBLocal.jar",
        "-port", toString self.port]
      ++ (if self.in_memory then ["-inMemory"] else [])
      ++ (match self.db_path with
          | some p => ["-dbPath", p]
          | none => [])
      ++ (if self.shared_db then ["-sharedDb"] else [])
      ++ self.extra_args := by
  unfold ddbArgs
  cases h1 : self.in_memory <;> cases h2 : self.db_path <;>
    cases h3 : self.shared_db <;> simp [h1, h2, h3]

/-- C4: the constructor ignores its `source_url` argument — the object
built from a custom URL stores the module default, which differs from the
requested URL; the installer thus downloads from the default. -/
theorem source_url_argument_ignored :
    ((initLocalDynamoDB "/home".data "http://example.com/custom.tar.gz"
        "/tmp/ddb_local" false 8000 false none false []).2.toOption.map
      (fun s => s.source_url)) = some DEFAULT_DOWNLOAD_URL
    ∧ DEFAULT_DOWNLOAD_URL ≠ "http://example.com/custom.tar.gz" := by
  exact ⟨rfl, by decide⟩

/-- C1: the path-traversal guard is character-wise, not component-wise.
For target directory `/tmp/ddb_local` and archive member
`../ddb_local_evil/pwn`, the member path resolves to
`/tmp/ddb_local_evil/pwn` — outside the target directory in the spec's
sense — yet `is_within_directory` accepts it, and an installation run over
an archive holding exactly that member finishes successfully after
extracting it, instead of aborting. -/
theorem traversal_check_accepts_escaping_entry :
    is_within_directory "/home/user".data "/tmp/ddb_local".data
        (joinPath "/tmp/ddb_local".data "../ddb_local_evil/pwn".data) = true
    ∧ resolvedWithinDir "/home/user".data "/tmp/ddb_local".data
        (joinPath "/tmp/ddb_local".data "../ddb_local_evil/pwn".data) = false
    ∧ (ensureInstalled (InstallEnv.mk "/home/user".data false true true true
          ["../ddb_local_evil/pwn".data])
        "/tmp/ddb_local".data "u").2 = Except.ok ()
    ∧ Eff.extractEntry (joinPath "/tmp/ddb_local".data "../ddb_local_evil/pwn".data) ∈
        (ensureInstalled (InstallEnv.mk "/home/user".data false true true true
            ["../ddb_local_evil/pwn".data])
          "/tmp/ddb_local".data "u").1 := by
  exact ⟨by decide, by decide, rfl, by decide⟩

/-- C7: when the target path already exists, the installer performs no
effects at all — it returns immediately when the path is a directory, and
fails with the configuration error (still writing nothing) when it is
not. -/
theorem installed_dir_short_circuit
    (env : InstallEnv) (d : List Char) (u : String) (h : env.dirExists = true) :
    (ensureInstalled env d u).1 = []
    ∧ (env.dirIsDir = true → (ensureInstalled env d u).2 = Except.ok ())
    ∧ (env.dirIsDir = false →
        (ensureInstalled env d u).2 = Except.error Err.notADirectory) := by
  cases hd : env.dirIsDir <;> simp [ensureInstalled, h, hd]

/-- Witness for `installed_dir_short_circuit` at a concrete existing
directory. -/
theorem installed_dir_short_circuit_witness :
    (InstallEnv.mk "/h".data true true true true []).dirExists = true
    ∧ ((ensureInstalled (InstallEnv.mk "/h".data true true true true [])
          "/d".data "u").1 = []
      ∧ ((InstallEnv.mk "/h".data true true true true []).dirIsDir = true →
          (ensureInstalled (InstallEnv.mk "/h".data true true true true [])
            "/d".data "u").2 = Except.ok ())
      ∧ ((InstallEnv.mk "/h".data true true true true []).dirIsDir = false →
          (ensureInstalled (InstallEnv.mk "/h".data true true true true [])
            "/d".data "u").2 = Except.error Err.notADirectory)) :=
  ⟨rfl, installed_dir_short_circuit (InstallEnv.mk "/h".data true true true true [])
    "/d".data "u" rfl⟩

/-- C10: a truthy db_path argument is stored as its absolute
normalization and its directory is created — the single constructor
effect — before the in-memory conflict is checked, so the directory is
created even when construction then fails; on success the stored path is
the absolute one. -/
theorem db_path_created_before_conflict_check
    (cwd : List Char) (su ud : String) (dbg : Bool) (port : Nat) (im : Bool)
    (p : String) (sdb : Bool) (xa : List String) (hp : p.data ≠ []) :
    (initLocalDynamoDB cwd su ud dbg port im (some p) sdb xa).1 =
      [Eff.makedirs (abspath cwd p.data)]
    ∧ (im = true → (initLocalDynamoDB cwd su ud dbg port im (some p) sdb xa).2 =
        Except.error Err.bothInMemoryAndDisk)
    ∧ (im = false →
        ((initLocalDynamoDB cwd su ud dbg port im (some p) sdb xa).2.toOption.map
          (fun s => s.db_path)) = some (some (String.mk (abspath cwd p.data)))) := by
  cases im <;> simp [initLocalDynamoDB, hp, Except.toOption]

/-- Witness for `db_path_created_before_conflict_check`: constructing
with `in_memory` and `db_path = "d"` fails, yet the `makedirs` effect is
present. -/
theorem db_path_created_before_conflict_check_witness :
    ("d" : String).data ≠ []
    ∧ ((initLocalDynamoDB "/h".data "u" "/t" false 1 true (some "d") false []).1 =
        [Eff.makedirs (abspath "/h".data ("d" : String).data)]
      ∧ (true = true →
          (initLocalDynamoDB "/h".data "u" "/t" false 1 true (some "d") false []).2 =
            Except.error Err.bothInMemoryAndDisk)
      ∧ (true = false →
          ((initLocalDynamoDB "/h".data "u" "/t" false 1 true (some "d")
              false []).2.toOption.map (fun s => s.db_path)) =
            some (some (String.mk (abspath "/h".data ("d" : String).data))))) :=
  ⟨by decide, db_path_created_before_conflict_check "/h".data "u" "/t" false 1 true
    "d" false [] (by decide)⟩

/-- C2 counterexample: from an absent target directory, a failed download
(connection error or bad HTTP status) propagates its error while the
directory just created by `os.makedirs` stays behind — it is not deleted,
contradicting the claim that any download failure deletes the target
directory. -/
theorem download_failure_leaves_directory_behind :
    (ensureInstalled (InstallEnv.mk "/h".data false true false true [])
        "/tmp/ddb_local".data "u").2.isOk = false
    ∧ dirPresentAfter "/tmp/ddb_local".data false
        (ensureInstalled (InstallEnv.mk "/h".data false true false true [])
          "/tmp/ddb_local".data "u").1 = true := by
  exact ⟨rfl, by decide⟩

/-- C2 as amended: starting from an absent target directory, if the
download succeeded and the run nevertheless fails (the tar stream is
unreadable or a member is rejected as traversal), the target directory is
recursively deleted before the error propagates; if the download itself
fails, the error propagates with the freshly created directory left in
place. -/
theorem extraction_failure_deletes_directory
    (env : InstallEnv) (d : List Char) (u : String) (h : env.dirExists = false) :
    (env.downloadOk = true → (ensureInstalled env d u).2.isOk = false →
      dirPresentAfter d false (ensureInstalled env d u).1 = false)
    ∧ (env.downloadOk = false →
        (ensureInstalled env d u).2.isOk = false
        ∧ dirPresentAfter d false (ensureInstalled env d u).1 = true) := by
  constructor
  · intro hdl herr
    cases ht : env.tarOk
    · simp [ensureInstalled, h, hdl, ht, dirPresentAfter, List.foldl_append, applyEff]
    · cases hr : (extractLoop env.cwd d env.members).2 with
      | ok v =>
        cases v
        simp [ensureInstalled, h, hdl, ht, hr, Except.isOk, Except.toBool] at herr
      | error e =>
        simp [ensureInstalled, h, hdl, ht, hr, dirPresentAfter, List.foldl_append,
          applyEff]
  · intro hdl
    refine ⟨?_, ?_⟩
    · simp [ensureInstalled, h, hdl, Except.isOk, Except.toBool]
    · simp [ensureInstalled, h, hdl, dirPresentAfter, applyEff]

/-- Witness for `extraction_failure_deletes_directory`: an unreadable tar
stream after a successful download ends with the directory deleted. -/
theorem extraction_failure_deletes_directory_witness :
    (InstallEnv.mk "/h".data false true true false []).dirExists = false
    ∧ (((InstallEnv.mk "/h".data false true true false []).downloadOk = true →
          (ensureInstalled (InstallEnv.mk "/h".data false true true false [])
            "/t".data "u").2.isOk = false →
          dirPresentAfter "/t".data false
            (ensureInstalled (InstallEnv.mk "/h".data false true true false [])
              "/t".data "u").1 = false)
      ∧ ((InstallEnv.mk "/h".data false true true false []).downloadOk = false →
          (ensureInstalled (InstallEnv.mk "/h".data false true true false [])
            "/t".data "u").2.isOk = false
          ∧ dirPresentAfter "/t".data false
              (ensureInstalled (InstallEnv.mk "/h".data false true true false [])
                "/t".data "u").1 = true)) :=
  ⟨rfl, extraction_failure_deletes_directory
    (InstallEnv.mk "/h".data false true true false []) "/t".data "u" rfl⟩

/-- C9: stop always leaves the handle cleared; with no handle it is a
pure no-op with no effects; and stopping again right after any stop is a
no-op as well. -/
theorem stop_idempotent_and_safe (g g2 : Bool) (self : LocalDynamoDB) :
    (stopSeq g self).1.ddb_process = none
    ∧ (self.ddb_process = none → stopSeq g self = (self, []))
    ∧ stopSeq g2 (stopSeq g self).1 = ((stopSeq g self).1, []) := by
  cases h : self.ddb_process <;> cases g <;> simp [stopSeq, h]

/-- A concrete configuration as built by the constructor with
`port = 1` and `in_memory = True`. -/
def baseCfg : LocalDynamoDB :=
  { source_url := DEFAULT_DOWNLOAD_URL
    unpack_dir := "/tmp/ddb_local"
    debug := false
    port := 1
    in_memory := true
    extra_args := []
    java_bin := none
    ddb_process := none
    endpoint := "http://localhost:1"
    shared_db := false
    db_path := none }

/-- `baseCfg` after a start that found a runtime and spawned pid 42. -/
def runningCfg : LocalDynamoDB :=
  { baseCfg with java_bin := some "java", ddb_process := some (Proc.mk 42 none) }

/-- Witness for `stop_idempotent_and_safe`: once on a configuration
holding a live handle and once on one with no handle (where the inner
no-op implication fires). -/
theorem stop_idempotent_and_safe_witness :
    ((stopSeq true runningCfg).1.ddb_process = none
      ∧ (runningCfg.ddb_process = none → stopSeq true runningCfg = (runningCfg, []))
      ∧ stopSeq false (stopSeq true runningCfg).1 =
          ((stopSeq true runningCfg).1, []))
    ∧ ((stopSeq true baseCfg).1.ddb_process = none
      ∧ (baseCfg.ddb_process = none → stopSeq true baseCfg = (baseCfg, []))
      ∧ stopSeq false (stopSeq true baseCfg).1 = ((stopSeq true baseCfg).1, [])) :=
  ⟨stop_idempotent_and_safe true false runningCfg,
    stop_idempotent_and_safe true false baseCfg⟩

/-- C5: with the port free, a runtime found and the install step
succeeding, a child whose exit code is already set right after spawn
makes start fail synchronously with the failed-to-start error carrying
that exit code, while the handle was stored; the readiness poll never
runs, and the error differs from the readiness-timeout error. -/
theorem dead_child_raises_failed_to_start
    (env : StartEnv) (self : LocalDynamoDB) (jb : String) (rc : Int)
    (hport : env.portFree = true) (hjava : env.javaBin = some jb)
    (hinst : (ensureInstalled env.install self.unpack_dir.data self.source_url).2 =
      Except.ok ())
    (hrc : env.spawnReturncode = some rc) :
    (startSeq env self).2.2 = Except.error (Err.failedToStart rc)
    ∧ (startSeq env self).1.ddb_process = some (Proc.mk env.spawnPid (some rc))
    ∧ Eff.reachWait ∉ (startSeq env self).2.1
    ∧ Err.failedToStart rc ≠ Err.neverReachable := by
  have hnr := ensureInstalled_reach_free env.install self.unpack_dir.data self.source_url
  refine ⟨?_, ?_, ?_, by simp⟩
  · simp [startSeq, hport, hjava, hrc, hinst]
  · simp [startSeq, hport, hjava, hrc, hinst]
  · simp only [startSeq, hport, hjava, hrc, hinst]
    simp [List.mem_append, hnr, hinst]

/-- A start environment in which everything up to the spawn succeeds
(already-installed directory, runtime found, port free), the OS assigns
pid 7, and the child has already exited with code 1 when `returncode` is
inspected. -/
def deadChildEnv : StartEnv :=
  StartEnv.mk true (some "java") (InstallEnv.mk "/h".data true true true true [])
    7 (some 1) false

/-- Witness for `dead_child_raises_failed_to_start` on `deadChildEnv` and
`baseCfg`. -/
theorem dead_child_raises_failed_to_start_witness :
    deadChildEnv.portFree = true
    ∧ deadChildEnv.javaBin = some "java"
    ∧ (ensureInstalled deadChildEnv.install baseCfg.unpack_dir.data
        baseCfg.source_url).2 = Except.ok ()
    ∧ deadChildEnv.spawnReturncode = some 1
    ∧ ((startSeq deadChildEnv baseCfg).2.2 = Except.error (Err.failedToStart 1)
      ∧ (startSeq deadChildEnv baseCfg).1.ddb_process =
          some (Proc.mk deadChildEnv.spawnPid (some 1))
      ∧ Eff.reachWait ∉ (startSeq deadChildEnv baseCfg).2.1
      ∧ Err.failedToStart 1 ≠ Err.neverReachable) :=
  ⟨rfl, rfl, rfl, rfl,
    dead_child_raises_failed_to_start deadChildEnv baseCfg "java" 1 rfl rfl rfl rfl⟩

/-- A start environment in which everything up to and including the spawn
succeeds (already-installed directory, runtime found, port free, pid 42,
child running) but the readiness poll times out. -/
def reachFailEnv : StartEnv :=
  StartEnv.mk true (some "java") (InstallEnv.mk "/h".data true true true true [])
    42 none false

/-- C3: under Python's context-manager protocol, an exception inside
`__enter__` propagates without `__exit__` ever being invoked.  When the
readiness wait times out after a successful spawn, the scoped lifecycle
therefore ends with the child handle still set and no terminate or kill
ever issued — the spawned child leaks instead of being stopped. -/
theorem readiness_failure_skips_stop :
    (withLifecycle reachFailEnv true true baseCfg).2.2 =
      Except.error Err.neverReachable
    ∧ (withLifecycle reachFailEnv true true baseCfg).1.ddb_process =
        some (Proc.mk 42 none)
    ∧ (withLifecycle reachFailEnv true true baseCfg).2.1 =
        [Eff.spawn ["java", "-Djava.library.path=DynamoDBLocal_lib", "-jar",
            "DynamoDBLocal.jar", "-port", "1", "-inMemory"] "/tmp/ddb_local",
          Eff.reachWait]
    ∧ Eff.terminate 42 ∉ (withLifecycle reachFailEnv true true baseCfg).2.1
    ∧ Eff.kill 42 ∉ (withLifecycle reachFailEnv true true baseCfg).2.1 := by
  refine ⟨rfl, rfl, rfl, by decide, by decide⟩
